import Mathlib

/-!
Verification development for the gocardless-open-banking SDK core.

The definitions below are a shallow embedding of the TypeScript sources:
`src/utils/backoff.ts` (backoff calculator), `src/errors/api-error.ts`
(error classifier), `src/types/rate-limit.ts` (rate-limit header parser),
`src/http/client.ts` (retrying request executor) and
`src/auth/token-manager.ts` (single-flight credential manager).
JavaScript numbers are modelled as rationals, nullable values as `Option`,
and the cooperative (single-threaded, suspension-point based) concurrency
of the credential manager as an explicit state machine whose steps are the
synchronous segments of the original async functions.
-/

/-! ### String helpers (models of the JS string operations used) -/

/-- Lower-case a string character by character (model of `toLowerCase` for
the ASCII data handled by the SDK). -/
def lowerStr (s : String) : String :=
  String.mk (s.toList.map Char.toLower)

/-- Match a literal list of characters at the head of a list; on success
return the remainder. -/
def matchLit : List Char → List Char → Option (List Char)
  | [], rest => some rest
  | _, [] => none
  | a :: as, b :: bs => if a = b then matchLit as bs else none

/-- Does the haystack contain the needle as a contiguous substring
(model of `String.prototype.includes`)? -/
def scanContains (needle : List Char) : List Char → Bool
  | [] => (matchLit needle []).isSome
  | c :: cs => (matchLit needle (c :: cs)).isSome || scanContains needle cs

/-- Substring test on strings. -/
def strContains (hay needle : String) : Bool :=
  scanContains needle.toList hay.toList

/-- Accumulate a decimal digit list into a natural number. -/
def digitsToNatAux (acc : Nat) : List Char → Nat
  | [] => acc
  | c :: cs => digitsToNatAux (acc * 10 + (c.toNat - Char.toNat (Char.ofNat 48))) cs

/-- Leading decimal-digit run of a character list, as a number; `none` when
there is no leading digit. -/
def leadingNat (l : List Char) : Option Nat :=
  let ds := l.takeWhile Char.isDigit
  if ds.isEmpty then none else some (digitsToNatAux 0 ds)

/-- Model of JavaScript `Number.parseInt(value, 10)`: skip leading
whitespace, accept an optional sign, read the leading digit run and ignore
any trailing characters; `none` models `NaN`. -/
def jsParseInt (s : String) : Option Int :=
  let l := s.toList.dropWhile Char.isWhitespace
  match l with
  | '-' :: rest => (leadingNat rest).map (fun n => -(n : Int))
  | '+' :: rest => (leadingNat rest).map (fun n => (n : Int))
  | rest => (leadingNat rest).map (fun n => (n : Int))

/-- Try to match the regular expression `try again in (\d+) second` at the
head of an (already lower-cased) character list, returning the captured
number.  The digit run is maximal, which coincides with the greedy `\d+`
because the following literal starts with a non-digit. -/
def tryMatchRetryAt (l : List Char) : Option Nat :=
  match matchLit ("try again in ").toList l with
  | none => none
  | some rest =>
    let ds := rest.takeWhile Char.isDigit
    let rest2 := rest.dropWhile Char.isDigit
    if ds.isEmpty then none
    else
      match matchLit (" second").toList rest2 with
      | none => none
      | some _ => some (digitsToNatAux 0 ds)

/-- Leftmost match of `try again in (\d+) second` in a character list. -/
def scanRetry : List Char → Option Nat
  | [] => none
  | c :: cs =>
    match tryMatchRetryAt (c :: cs) with
    | some n => some n
    | none => scanRetry cs

/-- Model of `detail.match(/try again in (\d+) second/i)` followed by
`parseInt` of the captured group: case-insensitive leftmost search. -/
def findRetryAfter (s : String) : Option Nat :=
  scanRetry (lowerStr s).toList

/-! ### Backoff calculator (`src/utils/backoff.ts`) -/

/-- The two retry backoff strategies. -/
inductive BackoffStrategy
  | linear
  | exponential
  deriving DecidableEq, Repr

/-- Model of `calculateBackoff`: exponential uses
`initialDelayMs * 2^(attemptNumber - 1)` with a JS-number (here: rational)
exponent, linear uses `initialDelayMs * attemptNumber`; the result is
upper-clamped by `maxDelayMs` via `min`. -/
def calculateBackoff (attemptNumber : Nat) (strategy : BackoffStrategy)
    (initialDelayMs maxDelayMs : ℚ) : ℚ :=
  let delay : ℚ :=
    if strategy = BackoffStrategy.exponential then
      initialDelayMs * (2 : ℚ) ^ ((attemptNumber : ℤ) - 1)
    else
      initialDelayMs * (attemptNumber : ℚ)
  min delay maxDelayMs

/-! ### Rate-limit header parser (`src/types/rate-limit.ts`) -/

/-- One group of rate-limit counters. -/
structure RateLimitGroup where
  limit : Option Int
  remaining : Option Int
  reset : Option Int
  deriving DecidableEq, Repr

/-- Parsed rate-limit snapshot: each group present only when some header of
the group parsed. -/
structure RateLimitInfo where
  general : Option RateLimitGroup
  accountSuccess : Option RateLimitGroup
  deriving DecidableEq, Repr

/-- Header maps are association lists; `Headers.get` is case-insensitive in
the header name and `null` (here `none`) when absent. -/
def headersGet (hs : List (String × String)) (name : String) : Option String :=
  (hs.find? (fun p => lowerStr p.1 = lowerStr name)).map (fun p => p.2)

/-- Model of the private `parseHeader`: `if (!value) return undefined`
(missing or empty string), then `Number.parseInt(value, 10)` with `NaN`
mapped to `undefined`. -/
def parseHeader (hs : List (String × String)) (name : String) : Option Int :=
  match headersGet hs name with
  | none => none
  | some v => if v = "" then none else jsParseInt v

/-- Model of `parseRateLimitHeaders`: build both groups, then return
`undefined` unless at least one field of one group is present; an all-absent
group is replaced by `undefined`. -/
def parseRateLimitHeaders (hs : List (String × String)) : Option RateLimitInfo :=
  let general : RateLimitGroup :=
    { limit := parseHeader hs "x-ratelimit-limit"
      remaining := parseHeader hs "x-ratelimit-remaining"
      reset := parseHeader hs "x-ratelimit-reset" }
  let accountSuccess : RateLimitGroup :=
    { limit := parseHeader hs "x-ratelimit-account-success-limit"
      remaining := parseHeader hs "x-ratelimit-account-success-remaining"
      reset := parseHeader hs "x-ratelimit-account-success-reset" }
  let hasGeneralData :=
    general.limit.isSome || general.remaining.isSome || general.reset.isSome
  let hasAccountData :=
    accountSuccess.limit.isSome || accountSuccess.remaining.isSome ||
      accountSuccess.reset.isSome
  if hasGeneralData = false ∧ hasAccountData = false then none
  else
    some
      { general := if hasGeneralData then some general else none
        accountSuccess := if hasAccountData then some accountSuccess else none }

/-! ### Error classifier (`src/errors/api-error.ts`) -/

/-- JSON error body `{summary?, detail?, status_code?}`. -/
structure ErrBody where
  summary : Option String
  detail : Option String
  status_code : Option Nat
  deriving DecidableEq, Repr

/-- The runtime value occupying the `meta` parameter of the error
constructor.  The executor passes its parsed rate-limit snapshot in this
positional slot (see `requestWithRetryAux`); the token manager passes
nothing; a `{ retryAfter }` bag is the shape the documentation describes. -/
inductive ErrMeta
  | ofRetryAfter (retryAfter : Nat)
  | ofRateLimit (info : RateLimitInfo)
  deriving DecidableEq, Repr

/-- The `GoCardlessAPIError` data (the class fields set by its
constructor). -/
structure GoCardlessAPIError where
  message : String
  statusCode : Nat
  code : String
  detail : String
  summary : String
  meta : Option ErrMeta
  deriving DecidableEq, Repr

/-- Model of the private static `getErrorCode`: map the status code and a
case-insensitive substring scan of the summary to a taxonomy code. -/
def GoCardlessAPIError.getErrorCode (statusCode : Nat) (body : ErrBody) : String :=
  let summary := lowerStr (match body.summary with | some s => s | none => "")
  if statusCode = 404 then
    if strContains summary "account" then "ACCOUNT_NOT_FOUND"
    else if strContains summary "transaction" then "TRANSACTION_NOT_FOUND"
    else if strContains summary "requisition" then "REQUISITION_NOT_FOUND"
    else if strContains summary "agreement" then "AGREEMENT_NOT_FOUND"
    else "NOT_FOUND"
  else if statusCode = 429 then "RATE_LIMIT_EXCEEDED"
  else if statusCode = 401 then "AUTHENTICATION_FAILED"
  else if statusCode = 403 then
    if strContains summary "ip" then "IP_NOT_WHITELISTED" else "FORBIDDEN"
  else if statusCode = 400 then "VALIDATION_ERROR"
  else if statusCode = 500 then "INTERNAL_SERVER_ERROR"
  else if statusCode = 502 then "BAD_GATEWAY"
  else if statusCode = 503 then "SERVICE_UNAVAILABLE"
  else if statusCode = 504 then "GATEWAY_TIMEOUT"
  else "UNKNOWN_ERROR"

/-- JS `x || d` on an optional string: the default replaces both a missing
and an empty (falsy) string. -/
def jsOrStr (o : Option String) (d : String) : String :=
  match o with
  | some s => if s = "" then d else s
  | none => d

/-- Model of the static `fromResponse(statusCode, body, meta?)` of
`src/errors/api-error.ts` (three parameters: any further positional
argument supplied by a caller is dropped, as in JavaScript). -/
def GoCardlessAPIError.fromResponse (statusCode : Nat) (body : ErrBody)
    (meta : Option ErrMeta) : GoCardlessAPIError :=
  let code := GoCardlessAPIError.getErrorCode statusCode body
  let summary := jsOrStr body.summary "API Error"
  let detail := jsOrStr body.detail "An error occurred"
  { message := summary ++ ": " ++ detail
    statusCode := statusCode
    code := code
    detail := detail
    summary := summary
    meta := meta }

/-- Model of `getRetryAfter()`: `null` unless the code is
`RATE_LIMIT_EXCEEDED`, else the case-insensitive scan of `detail` for
`try again in (\d+) second`. -/
def GoCardlessAPIError.getRetryAfter (e : GoCardlessAPIError) : Option Nat :=
  if e.code ≠ "RATE_LIMIT_EXCEEDED" then none
  else findRetryAfter e.detail

/-! ### Resilient request executor (`src/http/client.ts`) -/

/-- Retry configuration after the constructor has filled defaults
(`Required<RetryConfig>`). -/
structure RetryConfig where
  maxRetries : Nat
  retryableStatusCodes : List Nat
  backoff : BackoffStrategy
  initialDelayMs : ℚ
  maxDelayMs : ℚ
  respectRetryAfter : Bool
  deriving DecidableEq, Repr

/-- The defaults installed by the `HttpClient` constructor. -/
def defaultRetryConfig : RetryConfig :=
  { maxRetries := 2
    retryableStatusCodes := [429]
    backoff := BackoffStrategy.linear
    initialDelayMs := 1000
    maxDelayMs := 30000
    respectRetryAfter := true }

/-- What one underlying HTTP attempt produces: a transport-level success
with a decodable body, an HTTP error (the transport threw an error carrying
a response), or a pure transport failure (no response attached). -/
inductive HttpResult
  | success (body : String) (headers : List (String × String))
  | httpError (status : Nat) (body : ErrBody) (headers : List (String × String))
  | transportError (msg : String)
  deriving DecidableEq, Repr

/-- How a `requestWithRetry` run ends. -/
inductive ExecResult
  | ok (body : String)
  | apiError (e : GoCardlessAPIError)
  | raw (msg : String)
  | exhausted (last : Option GoCardlessAPIError)
  deriving DecidableEq, Repr

/-- Observable outcome of a run: the result, how many underlying HTTP calls
were issued, and the argument of each `sleep` in order. -/
structure ExecOutcome where
  result : ExecResult
  calls : Nat
  sleeps : List ℚ
  deriving DecidableEq, Repr

/-- Model of the retry-after extraction in `requestWithRetry`: only a 429
response's `detail` is scanned with `try again in (\d+) second`. -/
def extractRetryAfter (status : Nat) (body : ErrBody) : Option Nat :=
  if status = 429 then
    match body.detail with
    | some d => findRetryAfter d
    | none => none
  else none

/-- One loop iteration of `requestWithRetry` and its continuation.  The
fuel argument equals `maxRetries + 1 - attemptNumber`, so `fuel = 0` is the
`attemptNumber > maxRetries` loop exit that throws the last classified
error.  The classified error is built by calling the three-parameter
`fromResponse` the way `client.ts` does: the parsed rate-limit snapshot is
its third positional argument (landing in `meta`), and the fourth argument
`retryAfter ? { retryAfter } : undefined` is dropped. -/
def requestWithRetryAux (cfg : RetryConfig) (responses : Nat → HttpResult)
    (lastError : Option GoCardlessAPIError) :
    Nat → Nat → ExecOutcome
  | _, 0 => { result := ExecResult.exhausted lastError, calls := 0, sleeps := [] }
  | attemptNumber, fuel + 1 =>
    match responses attemptNumber with
    | HttpResult.success body _ =>
      { result := ExecResult.ok body, calls := 1, sleeps := [] }
    | HttpResult.transportError msg =>
      { result := ExecResult.raw msg, calls := 1, sleeps := [] }
    | HttpResult.httpError status body headers =>
      let rateLimit := parseRateLimitHeaders headers
      let retryAfter := extractRetryAfter status body
      let err := GoCardlessAPIError.fromResponse status body
        (rateLimit.map ErrMeta.ofRateLimit)
      if attemptNumber < cfg.maxRetries ∧ status ∈ cfg.retryableStatusCodes then
        let delayMs : ℚ :=
          if cfg.respectRetryAfter ∧ retryAfter ≠ none ∧ status = 429 then
            min ((retryAfter.getD 0 : ℚ) * 1000) cfg.maxDelayMs
          else
            calculateBackoff (attemptNumber + 1) cfg.backoff
              cfg.initialDelayMs cfg.maxDelayMs
        let rest := requestWithRetryAux cfg responses (some err) (attemptNumber + 1) fuel
        { result := rest.result, calls := rest.calls + 1, sleeps := delayMs :: rest.sleeps }
      else
        { result := ExecResult.apiError err, calls := 1, sleeps := [] }

/-- Model of `requestWithRetry`: start at attempt 0 with no last error. -/
def requestWithRetry (cfg : RetryConfig) (responses : Nat → HttpResult) : ExecOutcome :=
  requestWithRetryAux cfg responses none 0 (cfg.maxRetries + 1)

/-! ### Credential manager (`src/auth/token-manager.ts`)

The manager is modelled as a state machine over the cooperative
(single-threaded) JavaScript event loop.  A step is a synchronous segment
between suspension points: `getAccessTokenStep` is one whole synchronous
invocation of `getAccessToken` (it either returns a cached token or the
promise it awaits, dispatching a network call when it installs a new
in-flight operation), and `settleStep` is the continuation that runs when
the network call underlying a pending promise settles. -/

/-- The stored token pair (`StoredTokens`); timestamps are absolute
milliseconds. -/
structure StoredTokens where
  accessToken : String
  accessExpiresAt : ℚ
  refreshToken : String
  refreshExpiresAt : ℚ
  deriving DecidableEq, Repr

/-- Which endpoint an in-flight operation is talking to. -/
inductive OpKind
  | mint
  | refresh
  deriving DecidableEq, Repr

/-- A value thrown by a settled operation: classified, or a raw transport
error rethrown unmodified. -/
inductive ThrownValue
  | classified (e : GoCardlessAPIError)
  | raw (msg : String)
  deriving DecidableEq, Repr

/-- Discriminator used to state that a thrown value is (not) a classified
error. -/
def ThrownValue.isClassified : ThrownValue → Bool
  | ThrownValue.classified _ => true
  | ThrownValue.raw _ => false

/-- The state of one promise created by the manager.  `adopted q` is a
promise whose async function returned promise `q` (its settlement follows
`q`, as the refresh promise does after the 401 fallback returns the mint
promise). -/
inductive PromiseVal
  | pending (kind : OpKind)
  | adopted (target : Nat)
  | resolvedTok (tok : String)
  | rejected (v : ThrownValue)
  deriving DecidableEq, Repr

/-- The manager state plus the promise store and network-call counters.
Promise ids are indices into `promises` (append-only). -/
structure TMState where
  tokens : Option StoredTokens
  refreshPromise : Option Nat
  promises : List PromiseVal
  mintCalls : Nat
  refreshCalls : Nat
  deriving DecidableEq, Repr

/-- What one synchronous `getAccessToken` invocation hands its caller:
an immediately resolved token, or a promise id the caller awaits. -/
inductive CallRes
  | value (tok : String)
  | awaitP (pid : Nat)
  deriving DecidableEq, Repr

/-- Server outcome delivered to a pending network call. -/
inductive SettleOutcome
  | mintOk (access : String) (accessExpires : ℚ) (refresh : String) (refreshExpires : ℚ)
  | refreshOk (access : String) (accessExpires : ℚ)
  | httpErr (status : Nat) (body : ErrBody)
  | transportErr (msg : String)
  deriving DecidableEq, Repr

/-- Synchronous segment of `generateTokenPair`: coalesce onto an existing
in-flight operation, otherwise dispatch the mint network call, install the
new promise as the in-flight marker and hand it to the caller. -/
def generateTokenPairStep (s : TMState) : CallRes × TMState :=
  match s.refreshPromise with
  | some p => (CallRes.awaitP p, s)
  | none =>
    let pid := s.promises.length
    (CallRes.awaitP pid,
      { s with
        promises := s.promises ++ [PromiseVal.pending OpKind.mint]
        refreshPromise := some pid
        mintCalls := s.mintCalls + 1 })

/-- Synchronous segment of `refreshAccessToken`: coalesce, delegate to the
mint when no tokens are stored, otherwise dispatch the refresh call. -/
def refreshAccessTokenStep (s : TMState) : CallRes × TMState :=
  match s.refreshPromise with
  | some p => (CallRes.awaitP p, s)
  | none =>
    match s.tokens with
    | none => generateTokenPairStep s
    | some _ =>
      let pid := s.promises.length
      (CallRes.awaitP pid,
        { s with
          promises := s.promises ++ [PromiseVal.pending OpKind.refresh]
          refreshPromise := some pid
          refreshCalls := s.refreshCalls + 1 })

/-- One whole synchronous invocation of `getAccessToken` at clock `now`. -/
def getAccessTokenStep (now : ℚ) (s : TMState) : CallRes × TMState :=
  match s.tokens with
  | none => generateTokenPairStep s
  | some t =>
    if t.refreshExpiresAt ≤ now then generateTokenPairStep s
    else if t.accessExpiresAt - 60000 ≤ now then refreshAccessTokenStep s
    else (CallRes.value t.accessToken, s)

/-- Continuation run when the network call underlying pending promise `p`
settles at clock `now` with outcome `o`.  Mirrors the `try`/`catch`/
`finally` bodies of `generateTokenPair` and `refreshAccessToken`; in
particular, for a refresh failing with 401 the catch clears the in-flight
marker, dispatches the fallback mint (which installs its own marker) and
returns the mint promise — after which the `finally` of the refresh body
runs and clears the marker again. -/
def settleStep (p : Nat) (now : ℚ) (o : SettleOutcome) (s : TMState) : TMState :=
  match s.promises.get? p with
  | some (PromiseVal.pending OpKind.mint) =>
    match o with
    | SettleOutcome.mintOk a ae r re =>
      { s with
        tokens := some
          { accessToken := a, accessExpiresAt := now + ae * 1000
            refreshToken := r, refreshExpiresAt := now + re * 1000 }
        promises := s.promises.set p (PromiseVal.resolvedTok a)
        refreshPromise := none }
    | SettleOutcome.httpErr st b =>
      { s with
        promises := s.promises.set p (PromiseVal.rejected
          (ThrownValue.classified (GoCardlessAPIError.fromResponse st b none)))
        refreshPromise := none }
    | SettleOutcome.transportErr m =>
      { s with
        promises := s.promises.set p (PromiseVal.rejected (ThrownValue.raw m))
        refreshPromise := none }
    | SettleOutcome.refreshOk _ _ => s
  | some (PromiseVal.pending OpKind.refresh) =>
    match o with
    | SettleOutcome.refreshOk a ae =>
      match s.tokens with
      | some t =>
        { s with
          tokens := some { t with accessToken := a, accessExpiresAt := now + ae * 1000 }
          promises := s.promises.set p (PromiseVal.resolvedTok a)
          refreshPromise := none }
      | none => s
    | SettleOutcome.httpErr st b =>
      if st = 401 then
        let s1 := { s with refreshPromise := none }
        let rs := generateTokenPairStep s1
        let s3 := { rs.2 with refreshPromise := none }
        match rs.1 with
        | CallRes.awaitP q => { s3 with promises := s3.promises.set p (PromiseVal.adopted q) }
        | CallRes.value _ => s3
      else
        { s with
          promises := s.promises.set p (PromiseVal.rejected
            (ThrownValue.classified (GoCardlessAPIError.fromResponse st b none)))
          refreshPromise := none }
    | SettleOutcome.transportErr m =>
      { s with
        promises := s.promises.set p (PromiseVal.rejected (ThrownValue.raw m))
        refreshPromise := none }
    | SettleOutcome.mintOk _ _ _ _ => s
  | _ => s

/-- Result a waiter eventually observes. -/
inductive Settled
  | tok (t : String)
  | err (v : ThrownValue)
  deriving DecidableEq, Repr

/-- Follow a promise through adoption links until it settles; `none` when
it is still pending.  Adoption targets are created later than the adopting
promise, so the promise-store length bounds the chain. -/
def promiseFinal (s : TMState) : Nat → Nat → Option Settled
  | 0, _ => none
  | fuel + 1, p =>
    match s.promises.get? p with
    | some (PromiseVal.resolvedTok t) => some (Settled.tok t)
    | some (PromiseVal.rejected v) => some (Settled.err v)
    | some (PromiseVal.adopted q) => promiseFinal s fuel q
    | _ => none

/-- The eventual outcome of one caller of `getAccessToken`. -/
def callerResult (s : TMState) : CallRes → Option Settled
  | CallRes.value t => some (Settled.tok t)
  | CallRes.awaitP p => promiseFinal s s.promises.length p

/-- Number of operations whose network call is still pending. -/
def pendingOps (s : TMState) : Nat :=
  (s.promises.filter fun pv =>
    match pv with
    | PromiseVal.pending _ => true
    | _ => false).length

/-! ### Concrete scenario data shared by the theorems -/

/-- An error body with no fields (a body that failed to parse). -/
def bplain : ErrBody := ⟨none, none, none⟩

/-- A 429 body whose detail carries a server retry hint of 60 seconds. -/
def b429d : ErrBody := ⟨none, some "Please try again in 60 seconds", none⟩

/-- Response sequence 429, 429, then success. -/
def respSeq2then200 : Nat → HttpResult := fun n =>
  if n = 0 then HttpResult.httpError 429 bplain []
  else if n = 1 then HttpResult.httpError 429 bplain []
  else HttpResult.success "OK" []

/-- Persistent 429 responses. -/
def respSeq429 : Nat → HttpResult := fun _ => HttpResult.httpError 429 bplain []

/-- Persistent 404 responses. -/
def respSeq404 : Nat → HttpResult := fun _ => HttpResult.httpError 404 bplain []

/-- Persistent 429 responses carrying a retry hint and a rate-limit
header. -/
def respSeq429RL : Nat → HttpResult :=
  fun _ => HttpResult.httpError 429 b429d [("x-ratelimit-remaining", "0")]

/-- Default configuration with the delay cap lowered to 10000 ms. -/
def cfgCap10000 : RetryConfig := { defaultRetryConfig with maxDelayMs := 10000 }

/-- Default configuration with retries disabled. -/
def cfgNoRetries : RetryConfig := { defaultRetryConfig with maxRetries := 0 }

/-- The manager before any token was minted. -/
def tmInit : TMState := ⟨none, none, [], 0, 0⟩

/-- A stored pair whose access token is expired while the refresh token is
still far from expiry (the refresh window). -/
def tokensNeedRefresh : StoredTokens :=
  { accessToken := "old-access", accessExpiresAt := 0
    refreshToken := "refresh-tok", refreshExpiresAt := 1000000000 }

/-- A manager holding `tokensNeedRefresh` with nothing in flight. -/
def tmRefreshStart : TMState := ⟨some tokensNeedRefresh, none, [], 0, 0⟩

/-- The manager right after the first of the simultaneous callers
dispatched the mint. -/
def tmMintPending : TMState := ⟨none, some 0, [PromiseVal.pending OpKind.mint], 1, 0⟩

/-- The manager right after the first of the simultaneous callers
dispatched the refresh. -/
def tmRefreshPending : TMState :=
  ⟨some tokensNeedRefresh, some 0, [PromiseVal.pending OpKind.refresh], 0, 1⟩

/-- N back-to-back synchronous `getAccessToken` invocations (the model of
N simultaneous callers: all run before any network call settles). -/
def callN (now : ℚ) : Nat → TMState → TMState × List CallRes
  | 0, s => (s, [])
  | n + 1, s =>
    let rs1 := getAccessTokenStep now s
    let rs2 := callN now n rs1.2
    (rs2.1, rs1.1 :: rs2.2)

/-- The eventual outcomes of a batch of callers under a final state. -/
def allResults (s : TMState) (cs : List CallRes) : List (Option Settled) :=
  cs.map (callerResult s)

/-! ### Helper lemmas -/

/-- Once an invocation coalesces (returns the shared promise and leaves the
state unchanged), every further simultaneous invocation does the same. -/
theorem callN_coalesce (now : ℚ) (s : TMState) (p : Nat)
    (h : getAccessTokenStep now s = (CallRes.awaitP p, s)) :
    ∀ n, callN now n s = (s, List.replicate n (CallRes.awaitP p)) := by
  intro n
  induction n with
  | zero => rfl
  | succ n ih => simp [callN, h, ih, List.replicate]

/-- The retry loop issues at most `fuel` underlying calls. -/
theorem requestWithRetryAux_calls_le (cfg : RetryConfig) (responses : Nat → HttpResult) :
    ∀ (fuel attemptNumber : Nat) (lastError : Option GoCardlessAPIError),
      (requestWithRetryAux cfg responses lastError attemptNumber fuel).calls ≤ fuel := by
  intro fuel
  induction fuel with
  | zero => intro attemptNumber lastError; simp [requestWithRetryAux]
  | succ fuel ih =>
    intro attemptNumber lastError
    rw [requestWithRetryAux]
    cases hr : responses attemptNumber with
    | success body headers => simp
    | transportError msg => simp
    | httpError status body headers =>
      by_cases hc : attemptNumber < cfg.maxRetries ∧ status ∈ cfg.retryableStatusCodes
      · simp only [hc, if_true, and_self]
        have := ih (attemptNumber + 1)
          (some (GoCardlessAPIError.fromResponse status body
            ((parseRateLimitHeaders headers).map ErrMeta.ofRateLimit)))
        omega
      · simp [hc]

/-! ### Claim C5 — backoff calculator -/

/-- Claim C5 (counterexample): the claim states that at attempt 0 the
exponential strategy yields `d / 2` for every `d, max ≥ 0`; but the code
clamps the result at `maxDelayMs`, so with `d = 1000`, `max = 100` it
returns 100, not 500. -/
theorem calculateBackoff_attempt0_cap_cex :
    calculateBackoff 0 BackoffStrategy.exponential 1000 100 = 100 ∧ (100 : ℚ) ≠ 500 := by
  constructor
  · simp [calculateBackoff]
    norm_num
  · norm_num

/-- Claim C5 (amended): for every attempt ≥ 1 and all `d`, `max`,
linear backoff is `min(d*attempt, max)` and exponential backoff is
`min(d*2^(attempt-1), max)`; at attempt 0 linear yields 0 (for `max ≥ 0`)
and exponential yields `min(d/2, max)` — in particular
`calculateBackoff(0,"exponential",1000,30000) = 500`.  The function is a
pure function of its arguments (deterministic, no clock access), as its
very type in this embedding shows. -/
theorem calculateBackoff_spec :
    (∀ (attempt : Nat), 1 ≤ attempt → ∀ d m : ℚ,
      calculateBackoff attempt BackoffStrategy.linear d m = min (d * attempt) m ∧
      calculateBackoff attempt BackoffStrategy.exponential d m
        = min (d * 2 ^ (attempt - 1)) m) ∧
    (∀ d m : ℚ, 0 ≤ m → calculateBackoff 0 BackoffStrategy.linear d m = 0) ∧
    (∀ d m : ℚ, calculateBackoff 0 BackoffStrategy.exponential d m = min (d / 2) m) ∧
    calculateBackoff 0 BackoffStrategy.exponential 1000 30000 = 500 ∧
    calculateBackoff 0 BackoffStrategy.linear 1000 30000 = 0 := by
  refine ⟨?_, ?_, ?_, ?_, ?_⟩
  · intro attempt h d m
    obtain ⟨k, rfl⟩ : ∃ k, attempt = k + 1 := ⟨attempt - 1, by omega⟩
    refine ⟨by simp [calculateBackoff], ?_⟩
    have hz : ((k + 1 : Nat) : ℤ) - 1 = (k : ℤ) := by push_cast; ring
    simp only [calculateBackoff, if_pos rfl, if_true, hz, zpow_natCast, Nat.add_sub_cancel]
  · intro d m hm
    simpa [calculateBackoff] using min_eq_left hm
  · intro d m
    have hz : ((0 : Nat) : ℤ) - 1 = (-1 : ℤ) := by norm_num
    simp only [calculateBackoff, if_pos rfl, if_true, hz, zpow_neg_one]
    rw [div_eq_mul_inv]
  · simp [calculateBackoff]
    norm_num
  · simp [calculateBackoff]

/-- Claim C5 (witness): instances of `calculateBackoff_spec` at concrete
inputs. -/
theorem calculateBackoff_spec_w :
    calculateBackoff 3 BackoffStrategy.linear 1000 30000 = min ((1000 : ℚ) * 3) 30000 ∧
    calculateBackoff 0 BackoffStrategy.linear 1000 7 = 0 :=
  ⟨(calculateBackoff_spec.1 3 (by norm_num) 1000 30000).1,
   calculateBackoff_spec.2.1 1000 7 (by norm_num)⟩

/-! ### Claim C6 — 402 and 409 error codes -/

/-- Claim C6 (counterexample): `fromResponse` with status 402 and 409
produces code `UNKNOWN_ERROR`, not `PAYMENT_REQUIRED` and not `CONFLICT`:
`getErrorCode` has no branch for either status. -/
theorem fromResponse_402_409_cex :
    (GoCardlessAPIError.fromResponse 402 bplain none).code = "UNKNOWN_ERROR" ∧
    (GoCardlessAPIError.fromResponse 409 bplain none).code = "UNKNOWN_ERROR" ∧
    ("UNKNOWN_ERROR" : String) ≠ "PAYMENT_REQUIRED" ∧
    ("UNKNOWN_ERROR" : String) ≠ "CONFLICT" :=
  ⟨rfl, rfl, by decide, by decide⟩

/-- Claim C6 (amended): for every response body and meta, `fromResponse`
with status 402 and with status 409 yields the fall-through code
`UNKNOWN_ERROR`. -/
theorem fromResponse_402_409_unknown (body : ErrBody) (meta : Option ErrMeta) :
    (GoCardlessAPIError.fromResponse 402 body meta).code = "UNKNOWN_ERROR" ∧
    (GoCardlessAPIError.fromResponse 409 body meta).code = "UNKNOWN_ERROR" :=
  ⟨rfl, rfl⟩

/-! ### Claim C10 — getRetryAfter -/

/-- Claim C10: `getRetryAfter()` is `none` whenever the code is not
`RATE_LIMIT_EXCEEDED`; on a `RATE_LIMIT_EXCEEDED` error it is the
case-insensitive scan of the detail for `try again in N second` (singular
or plural), `none` when absent; with the documented concrete examples. -/
theorem getRetryAfter_spec :
    (∀ e : GoCardlessAPIError, e.code ≠ "RATE_LIMIT_EXCEEDED" → e.getRetryAfter = none) ∧
    (∀ e : GoCardlessAPIError, e.code = "RATE_LIMIT_EXCEEDED" →
      e.getRetryAfter = findRetryAfter e.detail) ∧
    (GoCardlessAPIError.fromResponse 429
      ⟨none, some "Please try again in 60 seconds", none⟩ none).getRetryAfter = some 60 ∧
    (GoCardlessAPIError.fromResponse 404 bplain none).getRetryAfter = none ∧
    (GoCardlessAPIError.fromResponse 429
      ⟨none, some "try again in 5 second!", none⟩ none).getRetryAfter = some 5 ∧
    (GoCardlessAPIError.fromResponse 429
      ⟨none, some "TRY AGAIN IN 60 SECONDS", none⟩ none).getRetryAfter = some 60 ∧
    (GoCardlessAPIError.fromResponse 429 bplain none).getRetryAfter = none := by
  refine ⟨?_, ?_, by decide, by decide, by decide, by decide, by decide⟩
  · intro e h
    simp [GoCardlessAPIError.getRetryAfter, h]
  · intro e h
    simp [GoCardlessAPIError.getRetryAfter, h]

/-- Claim C10 (witness): a 500-classified error (code
`INTERNAL_SERVER_ERROR`) gives no retry-after. -/
theorem getRetryAfter_spec_w :
    (GoCardlessAPIError.fromResponse 500 bplain none).getRetryAfter = none :=
  getRetryAfter_spec.1 _ (by decide)

/-! ### Claim C9 — rate-limit header parser -/

/-- Claim C9: a missing or non-numeric header value yields an absent field
(never zero, never an error); a group whose three fields are all absent is
omitted; when both groups are absent the whole result is absent; and the
two concrete examples from the specification. -/
theorem parseRateLimitHeaders_spec :
    (∀ hs name, headersGet hs name = none → parseHeader hs name = none) ∧
    (∀ hs name v, headersGet hs name = some v → jsParseInt v = none →
      parseHeader hs name = none) ∧
    (∀ hs r, parseHeader hs "x-ratelimit-limit" = none →
      parseHeader hs "x-ratelimit-remaining" = none →
      parseHeader hs "x-ratelimit-reset" = none →
      parseRateLimitHeaders hs = some r → r.general = none) ∧
    (∀ hs r, parseHeader hs "x-ratelimit-account-success-limit" = none →
      parseHeader hs "x-ratelimit-account-success-remaining" = none →
      parseHeader hs "x-ratelimit-account-success-reset" = none →
      parseRateLimitHeaders hs = some r → r.accountSuccess = none) ∧
    (∀ hs, parseHeader hs "x-ratelimit-limit" = none →
      parseHeader hs "x-ratelimit-remaining" = none →
      parseHeader hs "x-ratelimit-reset" = none →
      parseHeader hs "x-ratelimit-account-success-limit" = none →
      parseHeader hs "x-ratelimit-account-success-remaining" = none →
      parseHeader hs "x-ratelimit-account-success-reset" = none →
      parseRateLimitHeaders hs = none) ∧
    parseRateLimitHeaders [("x-ratelimit-remaining", "95")] =
      some { general := some { limit := none, remaining := some 95, reset := none }
             accountSuccess := none } ∧
    parseRateLimitHeaders [] = none := by
  refine ⟨?_, ?_, ?_, ?_, ?_, by decide, by decide⟩
  · intro hs name h
    simp [parseHeader, h]
  · intro hs name v h hv
    simp [parseHeader, h, hv]
  · intro hs r h1 h2 h3 hr
    simp only [parseRateLimitHeaders, h1, h2, h3, Option.isSome_none,
      Bool.false_or, Bool.or_false] at hr
    split at hr
    · exact absurd hr (by simp)
    · rw [Option.some.injEq] at hr
      subst hr
      simp
  · intro hs r h1 h2 h3 hr
    simp only [parseRateLimitHeaders, h1, h2, h3, Option.isSome_none,
      Bool.false_or, Bool.or_false] at hr
    split at hr
    · exact absurd hr (by simp)
    · rw [Option.some.injEq] at hr
      subst hr
      simp
  · intro hs h1 h2 h3 h4 h5 h6
    simp [parseRateLimitHeaders, h1, h2, h3, h4, h5, h6]

/-- Claim C9 (witness): a header map with no rate-limit headers parses to
nothing. -/
theorem parseRateLimitHeaders_spec_w :
    parseRateLimitHeaders [("x-other", "5")] = none :=
  parseRateLimitHeaders_spec.2.2.2.2.1 [("x-other", "5")]
    (by decide) (by decide) (by decide) (by decide) (by decide) (by decide)

/-! ### Claim C3 — retry count and termination behaviour -/

/-- Claim C3: the executor performs at most `maxRetries + 1` underlying
calls; it retries exactly when the 0-based attempt number is below
`maxRetries` and the status is retryable; with the default configuration
the sequence [429, 429, 200] takes 3 calls and returns the 200 body, a
persistent 429 takes 3 calls and raises the last classified error, a 404
takes 1 call and raises a classified error with statusCode 404; and with
`maxRetries = 0` a retryable first response raises at once with no
sleep. -/
theorem requestWithRetry_spec :
    (∀ (cfg : RetryConfig) (responses : Nat → HttpResult),
      (requestWithRetry cfg responses).calls ≤ cfg.maxRetries + 1) ∧
    (∀ (cfg : RetryConfig) (responses : Nat → HttpResult)
      (lastError : Option GoCardlessAPIError) (attemptNumber fuel : Nat)
      (st : Nat) (b : ErrBody) (h : List (String × String)),
      responses attemptNumber = HttpResult.httpError st b h →
      ¬(attemptNumber < cfg.maxRetries ∧ st ∈ cfg.retryableStatusCodes) →
      requestWithRetryAux cfg responses lastError attemptNumber (fuel + 1) =
        { result := ExecResult.apiError (GoCardlessAPIError.fromResponse st b
            ((parseRateLimitHeaders h).map ErrMeta.ofRateLimit))
          calls := 1, sleeps := [] }) ∧
    (∀ (cfg : RetryConfig) (responses : Nat → HttpResult)
      (lastError : Option GoCardlessAPIError) (attemptNumber fuel : Nat)
      (st : Nat) (b : ErrBody) (h : List (String × String)),
      responses attemptNumber = HttpResult.httpError st b h →
      attemptNumber < cfg.maxRetries → st ∈ cfg.retryableStatusCodes →
      (requestWithRetryAux cfg responses lastError attemptNumber (fuel + 1)).calls =
        (requestWithRetryAux cfg responses
          (some (GoCardlessAPIError.fromResponse st b
            ((parseRateLimitHeaders h).map ErrMeta.ofRateLimit)))
          (attemptNumber + 1) fuel).calls + 1) ∧
    (requestWithRetry defaultRetryConfig respSeq2then200).calls = 3 ∧
    (requestWithRetry defaultRetryConfig respSeq2then200).result = ExecResult.ok "OK" ∧
    (requestWithRetry defaultRetryConfig respSeq429).calls = 3 ∧
    (requestWithRetry defaultRetryConfig respSeq429).result =
      ExecResult.apiError (GoCardlessAPIError.fromResponse 429 bplain none) ∧
    (requestWithRetry defaultRetryConfig respSeq404).calls = 1 ∧
    (requestWithRetry defaultRetryConfig respSeq404).result =
      ExecResult.apiError (GoCardlessAPIError.fromResponse 404 bplain none) ∧
    (GoCardlessAPIError.fromResponse 404 bplain none).statusCode = 404 ∧
    (requestWithRetry cfgNoRetries respSeq429).calls = 1 ∧
    (requestWithRetry cfgNoRetries respSeq429).sleeps = [] ∧
    (requestWithRetry cfgNoRetries respSeq429).result =
      ExecResult.apiError (GoCardlessAPIError.fromResponse 429 bplain none) := by
  refine ⟨?_, ?_, ?_, rfl, rfl, rfl, rfl, rfl, rfl, rfl, rfl, rfl, rfl⟩
  · intro cfg responses
    exact requestWithRetryAux_calls_le cfg responses (cfg.maxRetries + 1) 0 none
  · intro cfg responses lastError attemptNumber fuel st b h hresp hc
    rw [requestWithRetryAux, hresp]
    simp [hc]
  · intro cfg responses lastError attemptNumber fuel st b h hresp h1 h2
    rw [requestWithRetryAux, hresp]
    simp [h1, h2]

/-- Claim C3 (witness): the no-retry characterization applied to a
concrete 404 under the default configuration. -/
theorem requestWithRetry_spec_w :
    requestWithRetryAux defaultRetryConfig respSeq404 none 0 3 =
      { result := ExecResult.apiError (GoCardlessAPIError.fromResponse 404 bplain
          ((parseRateLimitHeaders []).map ErrMeta.ofRateLimit))
        calls := 1, sleeps := [] } :=
  requestWithRetry_spec.2.1 defaultRetryConfig respSeq404 none 0 2 404 bplain []
    (by decide) (by decide)

/-! ### Claim C4 — sleep duration before a retry -/

/-- Claim C4: when the executor retries and `respectRetryAfter` is on and a
retryAfter of N seconds was extracted from the 429 body, the sleep before
the retry is exactly `min(N * 1000, maxDelayMs)`; in every other retried
case it is `calculateBackoff(attempt + 1, backoff, initialDelayMs,
maxDelayMs)`; concretely, N = 60 under a 10000 ms cap sleeps exactly
10000 ms. -/
theorem retrySleep_spec :
    (∀ (cfg : RetryConfig) (responses : Nat → HttpResult)
      (lastError : Option GoCardlessAPIError) (attemptNumber fuel : Nat)
      (st : Nat) (b : ErrBody) (h : List (String × String)) (n : Nat),
      responses attemptNumber = HttpResult.httpError st b h →
      attemptNumber < cfg.maxRetries → st ∈ cfg.retryableStatusCodes →
      cfg.respectRetryAfter = true → extractRetryAfter st b = some n →
      (requestWithRetryAux cfg responses lastError attemptNumber (fuel + 1)).sleeps.head? =
        some (min ((n : ℚ) * 1000) cfg.maxDelayMs)) ∧
    (∀ (cfg : RetryConfig) (responses : Nat → HttpResult)
      (lastError : Option GoCardlessAPIError) (attemptNumber fuel : Nat)
      (st : Nat) (b : ErrBody) (h : List (String × String)),
      responses attemptNumber = HttpResult.httpError st b h →
      attemptNumber < cfg.maxRetries → st ∈ cfg.retryableStatusCodes →
      ¬(cfg.respectRetryAfter = true ∧ extractRetryAfter st b ≠ none ∧ st = 429) →
      (requestWithRetryAux cfg responses lastError attemptNumber (fuel + 1)).sleeps.head? =
        some (calculateBackoff (attemptNumber + 1) cfg.backoff
          cfg.initialDelayMs cfg.maxDelayMs)) ∧
    (requestWithRetry cfgCap10000 respSeq429RL).sleeps.head? = some 10000 ∧
    ((10000 : ℚ) ≠ 60000) := by
  refine ⟨?_, ?_, ?_, by norm_num⟩
  · intro cfg responses lastError attemptNumber fuel st b h n hresp h1 h2 hra hext
    have hst : st = 429 := by
      by_contra hne
      rw [extractRetryAfter, if_neg hne] at hext
      exact Option.noConfusion hext
    subst hst
    rw [requestWithRetryAux, hresp]
    simp [h1, h2, hra, hext]
  · intro cfg responses lastError attemptNumber fuel st b h hresp h1 h2 hc
    rw [requestWithRetryAux, hresp]
    have hcond : ¬(cfg.respectRetryAfter ∧ extractRetryAfter st b ≠ none ∧ st = 429) := by
      intro hx
      exact hc ⟨hx.1, hx.2.1, hx.2.2⟩
    simp [h1, h2, hcond]
  · have hf : findRetryAfter "Please try again in 60 seconds" = some 60 := by decide
    simp [requestWithRetry, requestWithRetryAux, cfgCap10000, defaultRetryConfig,
      respSeq429RL, b429d, extractRetryAfter, hf]
    norm_num

/-- Claim C4 (witness): the retry-after sleep rule applied to a concretely
retried 429 whose detail announces 60 seconds, under the default 30000 ms
cap. -/
theorem retrySleep_spec_w :
    (requestWithRetryAux defaultRetryConfig respSeq429RL none 0 3).sleeps.head? =
      some (min ((60 : ℚ) * 1000) defaultRetryConfig.maxDelayMs) :=
  retrySleep_spec.1 defaultRetryConfig respSeq429RL none 0 2 429 b429d
    [("x-ratelimit-remaining", "0")] 60 (by decide) (by decide) (by decide)
    (by decide) (by decide)

/-! ### Claim C7 — meta of classified executor errors -/

/-- Claim C7 (code evaluation): `client.ts` calls `fromResponse(status,
body, rateLimit, retryAfter ? {retryAfter} : undefined)`, but
`fromResponse` in `api-error.ts` has only the three parameters
`(statusCode, body, meta)`; at run time the snapshot therefore lands in
`meta` and the `{retryAfter}` bag is dropped.  On a non-retried 429 whose
detail announces 60 seconds and whose headers carry
`x-ratelimit-remaining: 0`, a retryAfter of 60 is extracted, yet the
raised error's `meta` is the rate-limit snapshot and not
`{retryAfter: 60}`. -/
theorem executor_meta_arity_eval :
    (requestWithRetry cfgNoRetries respSeq429RL).result =
      ExecResult.apiError (GoCardlessAPIError.fromResponse 429 b429d
        (some (ErrMeta.ofRateLimit
          { general := some { limit := none, remaining := some 0, reset := none }
            accountSuccess := none }))) ∧
    extractRetryAfter 429 b429d = some 60 ∧
    (GoCardlessAPIError.fromResponse 429 b429d
      (some (ErrMeta.ofRateLimit
        { general := some { limit := none, remaining := some 0, reset := none }
          accountSuccess := none }))).meta ≠ some (ErrMeta.ofRetryAfter 60) :=
  ⟨rfl, by decide, by decide⟩

/-! ### Claim C8 — mint failure classification and marker clearing -/

/-- Claim C8 (counterexample): when the mint's underlying call fails with a
pure transport error, `generateTokenPair` rethrows the raw error
unmodified — the caller's rejection value is not a classified error. -/
theorem mint_transport_raw_cex :
    callerResult (settleStep 0 1 (SettleOutcome.transportErr "Network error")
        (getAccessTokenStep 0 tmInit).2) (CallRes.awaitP 0) =
      some (Settled.err (ThrownValue.raw "Network error")) ∧
    (ThrownValue.raw "Network error").isClassified = false :=
  ⟨rfl, rfl⟩

/-- Claim C8 (amended): a mint failure carrying an HTTP response is thrown
to the caller as the classified error `fromResponse(status, body)`; a pure
transport error is rethrown unmodified (not classified); and in all cases
(success or failure) the in-flight marker is cleared when the operation
settles, before control returns to any caller. -/
theorem mint_failure_spec :
    getAccessTokenStep 0 tmInit = (CallRes.awaitP 0, tmMintPending) ∧
    (∀ st b,
      callerResult (settleStep 0 1 (SettleOutcome.httpErr st b) tmMintPending)
          (CallRes.awaitP 0) =
        some (Settled.err (ThrownValue.classified
          (GoCardlessAPIError.fromResponse st b none))) ∧
      (settleStep 0 1 (SettleOutcome.httpErr st b) tmMintPending).refreshPromise = none) ∧
    (∀ m,
      callerResult (settleStep 0 1 (SettleOutcome.transportErr m) tmMintPending)
          (CallRes.awaitP 0) =
        some (Settled.err (ThrownValue.raw m)) ∧
      (settleStep 0 1 (SettleOutcome.transportErr m) tmMintPending).refreshPromise = none) ∧
    (∀ a ae r re,
      callerResult (settleStep 0 1 (SettleOutcome.mintOk a ae r re) tmMintPending)
          (CallRes.awaitP 0) = some (Settled.tok a) ∧
      (settleStep 0 1 (SettleOutcome.mintOk a ae r re) tmMintPending).refreshPromise = none) :=
  ⟨rfl, fun _ _ => ⟨rfl, rfl⟩, fun _ => ⟨rfl, rfl⟩, fun _ _ _ _ => ⟨rfl, rfl⟩⟩

/-! ### Claim C1 — coalescing of simultaneous getAccessToken callers -/

/-- Final state of: one caller requiring a refresh, the refresh answered
401, the fallback mint answered success. -/
def run401tok : TMState :=
  settleStep 1 2 (SettleOutcome.mintOk "new-access" 86400 "new-refresh" 2592000)
    (settleStep 0 1 (SettleOutcome.httpErr 401 bplain) tmRefreshPending)

/-- Claim C1 (counterexample): a batch of callers that all require
refreshing does not always make exactly one token-endpoint network call:
when the refresh fails with 401, the manager issues the refresh call and
then a fallback mint call — two network calls — even though the caller
receives a resolved token. -/
theorem coalesce_401_two_calls_cex :
    callN 0 1 tmRefreshStart = (tmRefreshPending, [CallRes.awaitP 0]) ∧
    tmRefreshPending.refreshCalls + tmRefreshPending.mintCalls = 1 ∧
    callerResult run401tok (CallRes.awaitP 0) = some (Settled.tok "new-access") ∧
    run401tok.refreshCalls + run401tok.mintCalls = 2 ∧
    (2 : Nat) ≠ 1 := by
  have hR : getAccessTokenStep 0 tmRefreshStart = (CallRes.awaitP 0, tmRefreshPending) := by
    simp [getAccessTokenStep, tmRefreshStart, tokensNeedRefresh,
      refreshAccessTokenStep, tmRefreshPending]
  exact ⟨by simp [callN, hR], rfl, rfl, rfl, by decide⟩

/-- Claim C1 (amended): N ≥ 1 simultaneous `getAccessToken()` calls that
all require minting, or all require refreshing, coalesce onto one shared
in-flight operation: exactly one network call per underlying operation —
one mint (for any outcome), or one refresh, plus exactly one fallback mint
when the refresh fails with HTTP 401 — and all N callers receive the same
resolved access-token string or the same rejection. -/
theorem getAccessToken_coalesce_spec (N : Nat) (hN : 1 ≤ N) :
    (callN 0 N tmInit = (tmMintPending, List.replicate N (CallRes.awaitP 0))) ∧
    tmMintPending.mintCalls = 1 ∧ tmMintPending.refreshCalls = 0 ∧
    (∀ a ae r re,
      allResults (settleStep 0 1 (SettleOutcome.mintOk a ae r re) tmMintPending)
          (List.replicate N (CallRes.awaitP 0)) =
        List.replicate N (some (Settled.tok a)) ∧
      (settleStep 0 1 (SettleOutcome.mintOk a ae r re) tmMintPending).mintCalls = 1) ∧
    (∀ st b,
      allResults (settleStep 0 1 (SettleOutcome.httpErr st b) tmMintPending)
          (List.replicate N (CallRes.awaitP 0)) =
        List.replicate N (some (Settled.err (ThrownValue.classified
          (GoCardlessAPIError.fromResponse st b none)))) ∧
      (settleStep 0 1 (SettleOutcome.httpErr st b) tmMintPending).mintCalls = 1) ∧
    (∀ m,
      allResults (settleStep 0 1 (SettleOutcome.transportErr m) tmMintPending)
          (List.replicate N (CallRes.awaitP 0)) =
        List.replicate N (some (Settled.err (ThrownValue.raw m)))) ∧
    (callN 0 N tmRefreshStart = (tmRefreshPending, List.replicate N (CallRes.awaitP 0))) ∧
    tmRefreshPending.refreshCalls = 1 ∧ tmRefreshPending.mintCalls = 0 ∧
    (∀ a ae,
      allResults (settleStep 0 1 (SettleOutcome.refreshOk a ae) tmRefreshPending)
          (List.replicate N (CallRes.awaitP 0)) =
        List.replicate N (some (Settled.tok a)) ∧
      (settleStep 0 1 (SettleOutcome.refreshOk a ae) tmRefreshPending).refreshCalls = 1 ∧
      (settleStep 0 1 (SettleOutcome.refreshOk a ae) tmRefreshPending).mintCalls = 0) ∧
    (∀ st b, st ≠ 401 →
      allResults (settleStep 0 1 (SettleOutcome.httpErr st b) tmRefreshPending)
          (List.replicate N (CallRes.awaitP 0)) =
        List.replicate N (some (Settled.err (ThrownValue.classified
          (GoCardlessAPIError.fromResponse st b none)))) ∧
      (settleStep 0 1 (SettleOutcome.httpErr st b) tmRefreshPending).refreshCalls = 1 ∧
      (settleStep 0 1 (SettleOutcome.httpErr st b) tmRefreshPending).mintCalls = 0) ∧
    (∀ m,
      allResults (settleStep 0 1 (SettleOutcome.transportErr m) tmRefreshPending)
          (List.replicate N (CallRes.awaitP 0)) =
        List.replicate N (some (Settled.err (ThrownValue.raw m)))) ∧
    (∀ b a ae r re,
      allResults (settleStep 1 2 (SettleOutcome.mintOk a ae r re)
            (settleStep 0 1 (SettleOutcome.httpErr 401 b) tmRefreshPending))
          (List.replicate N (CallRes.awaitP 0)) =
        List.replicate N (some (Settled.tok a)) ∧
      (settleStep 1 2 (SettleOutcome.mintOk a ae r re)
        (settleStep 0 1 (SettleOutcome.httpErr 401 b) tmRefreshPending)).refreshCalls = 1 ∧
      (settleStep 1 2 (SettleOutcome.mintOk a ae r re)
        (settleStep 0 1 (SettleOutcome.httpErr 401 b) tmRefreshPending)).mintCalls = 1) ∧
    (∀ b st2 b2,
      allResults (settleStep 1 2 (SettleOutcome.httpErr st2 b2)
            (settleStep 0 1 (SettleOutcome.httpErr 401 b) tmRefreshPending))
          (List.replicate N (CallRes.awaitP 0)) =
        List.replicate N (some (Settled.err (ThrownValue.classified
          (GoCardlessAPIError.fromResponse st2 b2 none))))) := by
  obtain ⟨n, rfl⟩ : ∃ n, N = n + 1 := ⟨N - 1, by omega⟩
  have hA : getAccessTokenStep 0 tmInit = (CallRes.awaitP 0, tmMintPending) := rfl
  have hA2 : getAccessTokenStep 0 tmMintPending = (CallRes.awaitP 0, tmMintPending) := rfl
  have hR : getAccessTokenStep 0 tmRefreshStart = (CallRes.awaitP 0, tmRefreshPending) := by
    simp [getAccessTokenStep, tmRefreshStart, tokensNeedRefresh,
      refreshAccessTokenStep, tmRefreshPending]
  have hR2 : getAccessTokenStep 0 tmRefreshPending = (CallRes.awaitP 0, tmRefreshPending) := by
    simp [getAccessTokenStep, tmRefreshPending, tokensNeedRefresh, refreshAccessTokenStep]
  refine ⟨?_, rfl, rfl, ?_, ?_, ?_, ?_, rfl, rfl, ?_, ?_, ?_, ?_, ?_⟩
  · simp [callN, hA, callN_coalesce 0 tmMintPending 0 hA2 n, List.replicate]
  · intro a ae r re
    exact ⟨by simp only [allResults, List.map_replicate]; rfl, rfl⟩
  · intro st b
    exact ⟨by simp only [allResults, List.map_replicate]; rfl, rfl⟩
  · intro m
    simp only [allResults, List.map_replicate]
    rfl
  · simp [callN, hR, callN_coalesce 0 tmRefreshPending 0 hR2 n, List.replicate]
  · intro a ae
    exact ⟨by simp only [allResults, List.map_replicate]; rfl, rfl, rfl⟩
  · intro st b hst
    have hpost : settleStep 0 1 (SettleOutcome.httpErr st b) tmRefreshPending =
        { tokens := some tokensNeedRefresh
          refreshPromise := none
          promises := [PromiseVal.rejected (ThrownValue.classified
            (GoCardlessAPIError.fromResponse st b none))]
          mintCalls := 0, refreshCalls := 1 } := by
      simp [settleStep, tmRefreshPending, hst]
    rw [hpost]
    exact ⟨by simp only [allResults, List.map_replicate]; rfl, rfl, rfl⟩
  · intro m
    simp only [allResults, List.map_replicate]
    rfl
  · intro b a ae r re
    exact ⟨by simp only [allResults, List.map_replicate]; rfl, rfl, rfl⟩
  · intro b st2 b2
    simp only [allResults, List.map_replicate]
    rfl

/-- Claim C1 (witness): three simultaneous callers on an empty manager
coalesce onto one mint and all resolve to the same token. -/
theorem getAccessToken_coalesce_spec_w :
    callN 0 3 tmInit = (tmMintPending, List.replicate 3 (CallRes.awaitP 0)) ∧
    allResults (settleStep 0 1 (SettleOutcome.mintOk "tok" 86400 "r" 2592000) tmMintPending)
        (List.replicate 3 (CallRes.awaitP 0)) =
      List.replicate 3 (some (Settled.tok "tok")) :=
  ⟨(getAccessToken_coalesce_spec 3 (by norm_num)).1,
   ((getAccessToken_coalesce_spec 3 (by norm_num)).2.2.2.1 "tok" 86400 "r" 2592000).1⟩

/-! ### Claim C2 — uniqueness of the in-flight operation across the
refresh-401 fallback -/

/-- The manager state right after a refresh settled with 401 and the
fallback mint was dispatched. -/
def tmFallbackMid : TMState :=
  settleStep 0 1 (SettleOutcome.httpErr 401 bplain) tmRefreshPending

/-- Claim C2 (code evaluation): after the refresh-401 fallback dispatches
the mint, the `finally` of the refresh body has already cleared the
in-flight marker even though the mint's network call is still pending; a
further `getAccessToken` caller therefore finds no marker, dispatches a
third network operation, and awaits a different promise — two operations
pending at once, violating the at-most-one-in-flight invariant the claim
states. -/
theorem refresh401_marker_cleared_eval :
    tmFallbackMid =
      { tokens := some tokensNeedRefresh
        refreshPromise := none
        promises := [PromiseVal.adopted 1, PromiseVal.pending OpKind.mint]
        mintCalls := 1, refreshCalls := 1 } ∧
    tmFallbackMid.refreshPromise = none ∧
    tmFallbackMid.promises.get? 1 = some (PromiseVal.pending OpKind.mint) ∧
    (getAccessTokenStep 2 tmFallbackMid).1 = CallRes.awaitP 2 ∧
    CallRes.awaitP 2 ≠ CallRes.awaitP 1 ∧
    pendingOps (getAccessTokenStep 2 tmFallbackMid).2 = 2 ∧
    ¬ (pendingOps (getAccessTokenStep 2 tmFallbackMid).2 ≤ 1) ∧
    (getAccessTokenStep 2 tmFallbackMid).2.refreshCalls = 2 ∧
    (getAccessTokenStep 2 tmFallbackMid).2.mintCalls = 1 := by
  have hstep : getAccessTokenStep 2 tmFallbackMid =
      (CallRes.awaitP 2,
        { tokens := some tokensNeedRefresh
          refreshPromise := some 2
          promises := [PromiseVal.adopted 1, PromiseVal.pending OpKind.mint,
            PromiseVal.pending OpKind.refresh]
          mintCalls := 1, refreshCalls := 2 }) := by
    simp [getAccessTokenStep, tmFallbackMid, settleStep, tmRefreshPending,
      tokensNeedRefresh, refreshAccessTokenStep, generateTokenPairStep]
    norm_num
  refine ⟨rfl, rfl, rfl, ?_, by decide, ?_, ?_, ?_, ?_⟩ <;> rw [hstep] <;> decide
